import Mathlib

/-!
# Droid Forge — audit / execution-tracking core, shallow embedding

This file embeds the core of the Droid Forge repository in Lean 4:

* `ExecutionTracker` (src/src/baas/audit.py): the in-memory lifecycle
  registry with per-droid rolling metrics.  Timestamps are modelled as
  integers (`Int`, seconds); metric arithmetic, performed with Python
  floats in the source, is modelled over `ℚ`.  The tracker's
  `threading.Lock` is **not reentrant**; every public method runs its
  body inside `with self.lock`.  We model this with an explicit
  `locked` flag: a method invoked while the lock is already held
  blocks forever, which the embedding renders as `none`.
* `AuditLogger` event emission for the execution-tracking events
  (`task.execution.started` / `completed` / `abandoned`), keeping the
  exact payload fields the Python `_write_event` calls attach.
* `ExecutionAnalyzer` (src/tools/analyze-execution.py): per-droid
  aggregation `analyze_droid_performance` and the stuck-execution part
  of `detect_performance_issues`.
* the NDJSON loaders `ExecutionAnalyzer.load_data` and
  `load_ndjson` (src/tools/analyze-audit.py), parameterised by the
  line decoder standing for `json.loads`.
* `validate_and_store_result` (AuditLogger) and the context manager
  `TaskExecution.__exit__` (src/src/baas/droid_interface.py).

Python dictionaries are modelled as association lists with
dict-semantics insert (replace the key) and delete (drop the key).
-/

/-- An opaque structured payload (a JSON object seen as key/value pairs);
only key membership is ever inspected by the code we model. -/
def Payload : Type := List (String × String)

instance : DecidableEq Payload := by
  unfold Payload
  infer_instance

/-- Dict-style delete on an association list: removes every binding of `k`
(Python dicts hold a key at most once, so `del d[k]` leaves no binding). -/
def dictErase (k : String) (l : List (String × α)) : List (String × α) :=
  l.filter (fun p => p.1 != k)

/-- Dict-style insert: `d[k] = v` replaces any existing binding of `k`. -/
def dictInsert (k : String) (v : α) (l : List (String × α)) : List (String × α) :=
  (k, v) :: dictErase k l

/-- Dict-style lookup (`k in d` / `d[k]` on a Python dict). -/
def dictGet? (k : String) : List (String × α) → Option α
  | [] => none
  | (a, v) :: t => if k == a then some v else dictGet? k t

/-- One live or finished execution record, as stored in
`ExecutionTracker.active_tasks` / `completed_tasks`. -/
structure TaskExec where
  task_id : String
  droid_id : String
  description : String
  start_time : Int
  end_time : Option Int
  duration_seconds : Option Int
  status : String
  abandon_reason : Option String
  result : Option Payload
deriving DecidableEq

/-- Per-droid rolling metrics (`ExecutionTracker.performance_metrics`
values).  Float arithmetic of the source is modelled over `ℚ`. -/
@[ext]
structure Metrics where
  total_executions : Nat
  successful_executions : Nat
  failed_executions : Nat
  total_duration : ℚ
  avg_duration : ℚ
  success_rate : ℚ
deriving DecidableEq

/-- The zero entry `_update_performance_metrics` creates for a droid it
has not seen before. -/
def metricsInit : Metrics :=
  { total_executions := 0
    successful_executions := 0
    failed_executions := 0
    total_duration := 0
    avg_duration := 0
    success_rate := 0 }

/-- `ExecutionTracker._update_performance_metrics`, update of one droid's
entry: increment total, accumulate duration, recompute average, bump the
success or failure counter, recompute `success_rate = successful / total`. -/
def updateMetrics (m : Metrics) (duration : ℚ) (success : Bool) : Metrics :=
  let total := m.total_executions + 1
  let td := m.total_duration + duration
  let avg := td / (total : ℚ)
  let succ := if success then m.successful_executions + 1 else m.successful_executions
  let failed := if success then m.failed_executions else m.failed_executions + 1
  let rate := (succ : ℚ) / (total : ℚ)
  { total_executions := total
    successful_executions := succ
    failed_executions := failed
    total_duration := td
    avg_duration := avg
    success_rate := rate }

/-- Mutable state of one `ExecutionTracker` (the `lock` is passed
separately as a `locked` flag where it matters). -/
structure TrackerState where
  active_tasks : List (String × TaskExec)
  completed_tasks : List TaskExec
  performance_metrics : List (String × Metrics)
deriving DecidableEq

def emptyTracker : TrackerState :=
  { active_tasks := [], completed_tasks := [], performance_metrics := [] }

/-- `_update_performance_metrics` at the dictionary level: fetch or create
the droid's entry, then update it. -/
def updateDroidMetrics (droid_id : String) (duration : ℚ) (success : Bool)
    (pm : List (String × Metrics)) : List (String × Metrics) :=
  let m := (dictGet? droid_id pm).getD metricsInit
  dictInsert droid_id (updateMetrics m duration success) pm

/-- Body of `ExecutionTracker.start_task_execution` (the critical section
inside `with self.lock`).  The execution id is
`f"exec-{int(time.time())}-{task_id}"`; with time modelled at second
granularity the same `now` stands for any two wall-clock reads within the
same second.  Returns the id and the new state. -/
def startBody (now : Int) (task_id droid_id description : String)
    (s : TrackerState) : String × TrackerState :=
  let execution_id := "exec-" ++ toString now ++ "-" ++ task_id
  let task : TaskExec :=
    { task_id := task_id
      droid_id := droid_id
      description := description
      start_time := now
      end_time := none
      duration_seconds := none
      status := "executing"
      abandon_reason := none
      result := none }
  (execution_id, { s with active_tasks := dictInsert execution_id task s.active_tasks })

/-- Body of `ExecutionTracker.complete_task_execution`: if the id is
active, set `end_time = now`, `duration = end_time - start_time` (no
clamping appears in the source), status `completed`/`failed`, move the
record to history and update the droid's metrics; otherwise do nothing. -/
def completeBody (now : Int) (execution_id : String) (result : Payload)
    (success : Bool) (s : TrackerState) : TrackerState :=
  match dictGet? execution_id s.active_tasks with
  | none => s
  | some task =>
      let duration := now - task.start_time
      let task' := { task with
        end_time := some now
        duration_seconds := some duration
        status := if success then "completed" else "failed"
        result := some result }
      { active_tasks := dictErase execution_id s.active_tasks
        completed_tasks := s.completed_tasks ++ [task']
        performance_metrics :=
          updateDroidMetrics task.droid_id (duration : ℚ) success s.performance_metrics }

/-- Body of `ExecutionTracker.abandon_task_execution`: same finalisation
path with status `abandoned`, the reason attached, an error payload, and
the metrics updated as a failure. -/
def abandonBody (now : Int) (execution_id reason : String)
    (s : TrackerState) : TrackerState :=
  match dictGet? execution_id s.active_tasks with
  | none => s
  | some task =>
      let duration := now - task.start_time
      let task' := { task with
        end_time := some now
        duration_seconds := some duration
        status := "abandoned"
        abandon_reason := some reason
        result := some [("error", "Task abandoned: " ++ reason)] }
      { active_tasks := dictErase execution_id s.active_tasks
        completed_tasks := s.completed_tasks ++ [task']
        performance_metrics :=
          updateDroidMetrics task.droid_id (duration : ℚ) false s.performance_metrics }

/-- Public `complete_task_execution`: acquires `self.lock` (a
non-reentrant `threading.Lock`), runs the body, releases.  Acquiring a
lock that is already held blocks forever, rendered as `none`. -/
def complete_task_execution (now : Int) (execution_id : String) (result : Payload)
    (success : Bool) (locked : Bool) (s : TrackerState) : Option TrackerState :=
  if locked then none else some (completeBody now execution_id result success s)

/-- Public `abandon_task_execution`, with the same lock discipline. -/
def abandon_task_execution (now : Int) (execution_id reason : String)
    (locked : Bool) (s : TrackerState) : Option TrackerState :=
  if locked then none else some (abandonBody now execution_id reason s)

/-- Public `start_task_execution`, with the same lock discipline. -/
def start_task_execution (now : Int) (task_id droid_id description : String)
    (locked : Bool) (s : TrackerState) : Option (String × TrackerState) :=
  if locked then none else some (startBody now task_id droid_id description s)

/-- `ExecutionTracker.cleanup_stale_tasks`: under `with self.lock`,
collect every active execution with `now - start_time > timeout_seconds`,
then call the **public** `abandon_task_execution` on each while the lock
is still held.  `threading.Lock` is not reentrant, so that inner call
re-acquires a held lock. -/
def cleanup_stale_tasks (now : Int) (timeout_seconds : Int) (locked : Bool)
    (s : TrackerState) : Option TrackerState :=
  if locked then none
  else
    let stale := (s.active_tasks.filter
      (fun p => now - p.2.start_time > timeout_seconds)).map (fun p => p.1)
    stale.foldl
      (fun acc execution_id =>
        acc.bind (abandon_task_execution now execution_id "timeout" true))
      (some s)

/-!
## AuditLogger event emission and scenario execution

`AuditLogger.log_task_execution_started/_completed/_abandoned` drive the
tracker and append one record to the events stream.  We keep exactly the
payload fields the Python `_write_event` calls attach (besides the
`timestamp` / `run_id` metadata, which `analyze_droid_performance` and
the stuck-execution detection never consult).  In particular the
`task.execution.completed` and `task.execution.abandoned` payloads in
the source carry **no** `droid_id` and no `task_id`.
-/

/-- One record of the events stream, restricted to the fields the
modelled analyzer paths read. -/
structure Event where
  event_type : String
  execution_id : Option String
  task_id : Option String
  droid_id : Option String
  status : Option String
deriving DecidableEq

/-- State of one `AuditLogger`: its tracker plus the events stream it
has appended to. -/
structure AuditState where
  tracker : TrackerState
  events : List Event
deriving DecidableEq

def emptyAudit : AuditState := { tracker := emptyTracker, events := [] }

/-- One call through the `AuditLogger` execution-tracking API, tagged
with the wall-clock second at which it runs. -/
inductive AuditOp
  | start (now : Int) (task_id droid_id description : String)
  | complete (now : Int) (execution_id : String) (result : Payload) (success : Bool)
  | abandon (now : Int) (execution_id reason : String)

/-- `AuditLogger.log_task_execution_started`: drive the tracker, then
append a `task.execution.started` record carrying `task_id`, `droid_id`,
`execution_id`, `status: executing`. -/
def logStarted (now : Int) (task_id droid_id description : String)
    (a : AuditState) : AuditState :=
  let r := startBody now task_id droid_id description a.tracker
  { tracker := r.2
    events := a.events ++
      [{ event_type := "task.execution.started"
         execution_id := some r.1
         task_id := some task_id
         droid_id := some droid_id
         status := some "executing" }] }

/-- `AuditLogger.log_task_execution_completed`: drive the tracker, then
append a `task.execution.completed` record carrying only `execution_id`,
`status` and the result (no `droid_id`, no `task_id`). -/
def logCompleted (now : Int) (execution_id : String) (result : Payload)
    (success : Bool) (a : AuditState) : AuditState :=
  { tracker := completeBody now execution_id result success a.tracker
    events := a.events ++
      [{ event_type := "task.execution.completed"
         execution_id := some execution_id
         task_id := none
         droid_id := none
         status := some (if success then "completed" else "failed") }] }

/-- `AuditLogger.log_task_execution_abandoned`: drive the tracker, then
append a `task.execution.abandoned` record carrying only `execution_id`
and `status` (no `droid_id`, no `task_id`). -/
def logAbandoned (now : Int) (execution_id reason : String)
    (a : AuditState) : AuditState :=
  { tracker := abandonBody now execution_id reason a.tracker
    events := a.events ++
      [{ event_type := "task.execution.abandoned"
         execution_id := some execution_id
         task_id := none
         droid_id := none
         status := some "abandoned" }] }

/-- Run a scenario of `AuditLogger` calls from the empty state. -/
def runOps (ops : List AuditOp) : AuditState :=
  ops.foldl
    (fun a op =>
      match op with
      | .start now t d desc => logStarted now t d desc a
      | .complete now e r suc => logCompleted now e r suc a
      | .abandon now e reason => logAbandoned now e reason a)
    emptyAudit

/-!
## ExecutionAnalyzer — per-droid aggregation

`analyze_droid_performance` scans the events of the three execution
types; **every** such event (including `started`) increments the
droid's `executions` counter, attributing the event to
`event.get("droid_id", ...)` with default `"unknown"`; a `completed`
event bumps `successful` or `failed` depending on its `status`; an
`abandoned` event bumps `abandoned`.  Then `success_rate =
successful / executions` for every droid with `executions > 0`.
-/

/-- Counters kept per droid by `analyze_droid_performance`. -/
structure DroidStats where
  executions : Nat
  successful : Nat
  failed : Nat
  abandoned : Nat
  success_rate : ℚ
  failure_rate : ℚ
deriving DecidableEq

def droidStatsInit : DroidStats :=
  { executions := 0, successful := 0, failed := 0, abandoned := 0
    success_rate := 0, failure_rate := 0 }

/-- The three event types `analyze_droid_performance` scans. -/
def isExecutionEvent (e : Event) : Bool :=
  e.event_type == "task.execution.started" ||
  e.event_type == "task.execution.completed" ||
  e.event_type == "task.execution.abandoned"

/-- Counter update for one execution event. -/
def droidStatsStep (stats : List (String × DroidStats)) (e : Event) :
    List (String × DroidStats) :=
  let droid_id := e.droid_id.getD "unknown"
  let cur := (dictGet? droid_id stats).getD droidStatsInit
  let cur := { cur with executions := cur.executions + 1 }
  let cur :=
    if e.event_type == "task.execution.completed" then
      if e.status == some "completed" then
        { cur with successful := cur.successful + 1 }
      else
        { cur with failed := cur.failed + 1 }
    else if e.event_type == "task.execution.abandoned" then
      { cur with abandoned := cur.abandoned + 1 }
    else cur
  dictInsert droid_id cur stats

/-- `ExecutionAnalyzer.analyze_droid_performance` restricted to the
execution events (the self-report pass only touches `self_reports` /
`last_seen`, which we do not model): accumulate counters, then compute
the rates for every droid with at least one execution. -/
def analyze_droid_performance (events : List Event) : List (String × DroidStats) :=
  let stats := (events.filter isExecutionEvent).foldl droidStatsStep []
  stats.map (fun p =>
    if p.2.executions > 0 then
      (p.1, { p.2 with
        success_rate := (p.2.successful : ℚ) / (p.2.executions : ℚ)
        failure_rate := (p.2.failed : ℚ) / (p.2.executions : ℚ) })
    else
      (p.1, { p.2 with success_rate := 0, failure_rate := 0 }))

/-!
## ExecutionAnalyzer — stuck-execution detection

In `detect_performance_issues`, the stuck set is computed as
`started_ids - completed_ids` (a set difference); the ids of
`task.execution.abandoned` records are **not** removed.  If the set is
non-empty, one issue is appended carrying the count and the first five
ids.
-/

/-- Distinct execution ids of `task.execution.started` records
(`{e.get("execution_id") for e in execution_started}`). -/
def started_ids (events : List Event) : List String :=
  ((events.filter (fun e => e.event_type == "task.execution.started")).filterMap
    (fun e => e.execution_id)).eraseDups

/-- Distinct execution ids of `task.execution.completed` records. -/
def completed_ids (events : List Event) : List String :=
  ((events.filter (fun e => e.event_type == "task.execution.completed")).filterMap
    (fun e => e.execution_id)).eraseDups

/-- `stuck_ids = started_ids - completed_ids` (set difference as in the
source; abandoned ids are not subtracted). -/
def stuck_ids (events : List Event) : List String :=
  (started_ids events).filter (fun i => !(completed_ids events).contains i)

/-- The stuck-executions issue `detect_performance_issues` reports:
`none` when the stuck set is empty, otherwise the count together with
the first five ids. -/
def stuckIssue (events : List Event) : Option (Nat × List String) :=
  let s := stuck_ids events
  if s.isEmpty then none else some (s.length, s.take 5)

/-!
## NDJSON loaders

Both loaders process the non-blank lines of a file with `json.loads`,
modelled by a decoder parameter `parse : String → Option R` (`none`
standing for a raised `JSONDecodeError`).

* `ExecutionAnalyzer.load_data` builds the whole list in a single list
  comprehension inside `try`/`except Exception`: the first malformed
  line aborts the comprehension, the handler prints a warning and the
  attribute keeps its prior value `[]` — so the stream contributes no
  records at all.
* `load_ndjson` (tools/analyze-audit.py) appends line by line but its
  `try` only catches `FileNotFoundError`, so a malformed line propagates
  the decode error to the caller.
-/

/-- `line.strip()` truthiness test used by both loaders. -/
def lineNonBlank (line : String) : Bool :=
  line.data.any (fun c => !(c == ' ' || c == '\t' || c == '\n' || c == '\r'))

/-- `ExecutionAnalyzer.load_data`, one stream: all-or-nothing decoding.
`[json.loads(line) for line in f if line.strip()]` either decodes every
non-blank line or raises at the first malformed one, in which case the
`except` branch leaves the records attribute at its initial `[]`. -/
def load_data (parse : String → Option R) (lines : List String) : List R :=
  match (lines.filter lineNonBlank).mapM parse with
  | some records => records
  | none => []

/-- `load_ndjson`: per-line append, but a decode failure is not caught
(only `FileNotFoundError` is), so it escapes as an error. -/
def load_ndjson (parse : String → Option R) (lines : List String) :
    Except String (List R) :=
  match (lines.filter lineNonBlank).mapM parse with
  | some records => Except.ok records
  | none => Except.error "json.decoder.JSONDecodeError"

/-!
## AuditLogger.validate_and_store_result

A non-dict payload is rejected with `False` and nothing is written.  A
dict payload is classified by the first matching well-known key, in
source order `files_created`, `commits`, `tests_run`, `error`, default
`"unknown"`, and exactly one `task.result.validated` record is appended
to the results stream before returning `True`.
-/

/-- The record appended to the results stream by
`validate_and_store_result`. -/
structure ValidatedResult where
  execution_id : String
  category : String
  original_result : Payload
deriving DecidableEq

/-- Key-membership test on a payload (`"k" in result` on a Python dict). -/
def payloadHasKey (result : Payload) (k : String) : Bool :=
  result.any (fun p => p.1 == k)

/-- The classification cascade of `validate_and_store_result`. -/
def categorizeResult (result : Payload) : String :=
  if payloadHasKey result "files_created" then "file_operations"
  else if payloadHasKey result "commits" then "git_operations"
  else if payloadHasKey result "tests_run" then "testing"
  else if payloadHasKey result "error" then "error"
  else "unknown"

/-- `AuditLogger.validate_and_store_result`.  The argument is `none`
for a non-dict payload (`isinstance(result, dict)` fails) and `some r`
for a dict.  Returns the boolean result together with the records
written to the results stream during the call. -/
def validate_and_store_result (execution_id : String)
    (result : Option Payload) : Bool × List ValidatedResult :=
  match result with
  | none => (false, [])
  | some r =>
      (true,
       [{ execution_id := execution_id
          category := categorizeResult r
          original_result := r }])

/-!
## TaskExecution context manager (src/src/baas/droid_interface.py)

`TaskExecution.__exit__` inspects the exception triple: on an abnormal
exit it records `{"error": str(exc_val), "exception_type": exc_type.__name__}`,
emits an error report and then a completion report with `success=False`;
on a normal exit it emits one completion report with `success=True`.
It returns `True` in both cases, suppressing the exception.
-/

/-- The `result` dict the exit handler builds. -/
inductive ExitResult
  | completedDict (description : String)
  | errorDict (message exceptionType : String)
deriving DecidableEq

/-- One self-report record, restricted to the fields
`report_error` / `report_task_completion` put into it. -/
structure SelfReport where
  status : String
  task_id : String
  event_type : String
  result : Option ExitResult
  success : Option Bool
  error : Option String
deriving DecidableEq

/-- `DroidExecutionInterface.report_error`: a `"failed"` status report
with the error message and `event_type: "error"`. -/
def report_error_record (task_id error : String) : SelfReport :=
  { status := "failed"
    task_id := task_id
    event_type := "error"
    result := none
    success := none
    error := some error }

/-- `DroidExecutionInterface.report_task_completion`: status
`"completed"`/`"failed"` by the success flag, the result payload, and
`event_type: "task_completion"`. -/
def report_task_completion_record (task_id : String) (result : ExitResult)
    (success : Bool) : SelfReport :=
  { status := if success then "completed" else "failed"
    task_id := task_id
    event_type := "task_completion"
    result := some result
    success := some success
    error := none }

/-- `TaskExecution.__exit__`: the exception triple is `none` on normal
exit and `some (message, typeName)` on abnormal exit.  Returns the value
of `__exit__` (the suppression flag) and the reports emitted, in order. -/
def taskExecutionExit (task_id description : String)
    (exc : Option (String × String)) : Bool × List SelfReport :=
  match exc with
  | some (msg, ty) =>
      (true,
       [report_error_record task_id msg,
        report_task_completion_record task_id (ExitResult.errorDict msg ty) false])
  | none =>
      (true,
       [report_task_completion_record task_id
         (ExitResult.completedDict description) true])

/-!
## Theorems
-/

/-- Looking a key up after dict-deleting it finds nothing. -/
theorem lookup_dictErase (k : String) (l : List (String × α)) :
    dictGet? k (dictErase k l) = none := by
  induction l with
  | nil => rfl
  | cons p t ih =>
      obtain ⟨a, v⟩ := p
      by_cases h : a = k
      · simpa [dictErase, List.filter_cons, h] using ih
      · have hk : (k == a) = false := beq_eq_false_iff_ne.mpr (fun hk => h hk.symm)
        have hb : (a != k) = true := bne_iff_ne.mpr h
        rw [dictErase, List.filter_cons] at *
        simp only [hb, if_true]
        rw [dictGet?]
        simp only [hk, if_false]
        exact ih

/-- C3: `complete_task_execution` on an id that is not active (with the
lock free) is a no-op returning the state unchanged, and a second
completion of the same id — with any arguments — after a first one never
changes the state again (so agent metrics are never double-counted). -/
theorem c3_complete_noop_idempotent
    (s : TrackerState) (execution_id : String) (now now' : Int)
    (result result' : Payload) (success success' : Bool) :
    (dictGet? execution_id s.active_tasks = none →
      complete_task_execution now execution_id result success false s = some s) ∧
    complete_task_execution now' execution_id result' success' false
        (completeBody now execution_id result success s) =
      some (completeBody now execution_id result success s) := by
  constructor
  · intro h
    simp [complete_task_execution, completeBody, h]
  · cases h : dictGet? execution_id s.active_tasks with
    | none => simp [complete_task_execution, completeBody, h]
    | some task =>
        simp [complete_task_execution, completeBody, h, lookup_dictErase]

/-- Witness for C3 at a concrete state. -/
theorem c3_complete_noop_idempotent_witness :
    complete_task_execution 5 "e9" [] true false emptyTracker = some emptyTracker :=
  (c3_complete_noop_idempotent emptyTracker "e9" 5 6 [] [] true false).1 rfl

/-- A concrete stand-in for `json.loads` used to evaluate the loaders on
a specific stream: it decodes exactly the two well-formed lines of that
stream and fails (raises) on anything else. -/
def demoParse (s : String) : Option String :=
  if s = "rec1" ∨ s = "rec2" then some s else none

/-- C4 (code evaluated at the failing input): one malformed line among
two well-formed ones makes `load_data` yield **zero** records (the whole
comprehension aborts and the attribute keeps its initial `[]`) and makes
`load_ndjson` raise the decode error — while the same stream without the
malformed line yields its two records.  The claim that exactly the N
well-formed records are produced is false for both loaders. -/
theorem c4_malformed_line_loses_all :
    load_data demoParse ["rec1", "not json", "rec2"] = [] ∧
    load_ndjson demoParse ["rec1", "not json", "rec2"] =
      Except.error "json.decoder.JSONDecodeError" ∧
    load_data demoParse ["rec1", "rec2", "  "] = ["rec1", "rec2"] := by
  refine ⟨by decide, by rfl, by decide⟩

/-- The analyzer input for C5: one execution `E` that was started and
then abandoned (the records `log_task_execution_started` and
`log_task_execution_abandoned` write for it). -/
def c5events : List Event :=
  [{ event_type := "task.execution.started"
     execution_id := some "E"
     task_id := some "t"
     droid_id := some "d"
     status := some "executing" },
   { event_type := "task.execution.abandoned"
     execution_id := some "E"
     task_id := none
     droid_id := none
     status := some "abandoned" }]

/-- C5 (code evaluated at the failing input): an execution that was
started and then **abandoned** is still reported as stuck — the stuck
set is `started_ids - completed_ids` and abandoned ids are never
subtracted — contradicting the claim that such an execution is not
reported. -/
theorem c5_abandoned_reported_stuck :
    (c5events.filter
      (fun e => e.event_type == "task.execution.abandoned")).length = 1 ∧
    stuckIssue c5events = some (1, ["E"]) := by
  refine ⟨?_, ?_⟩ <;> decide

/-- C6 (code evaluated at the failing input): two `start` calls for the
same task within the same wall-clock second return the **same**
execution id (`f"exec-{int(time.time())}-{task_id}"` has one-second
granularity) and the second insertion overwrites the first active
execution, leaving a single active entry — contradicting freshness of
ids and preservation of existing active executions. -/
theorem c6_duplicate_execution_id :
    (startBody 100 "t1" "d1" "first" emptyTracker).1 =
      (startBody 100 "t1" "d1" "second"
        (startBody 100 "t1" "d1" "first" emptyTracker).2).1 ∧
    ((startBody 100 "t1" "d1" "second"
        (startBody 100 "t1" "d1" "first" emptyTracker).2).2.active_tasks.map
      (fun p => (p.1, p.2.description))) = [("exec-100-t1", "second")] := by
  refine ⟨?_, ?_⟩ <;> decide

/-- The tracker state for C8: one execution, active since time 0. -/
def c8task : TaskExec :=
  { task_id := "t1"
    droid_id := "d1"
    description := "demo"
    start_time := 0
    end_time := none
    duration_seconds := none
    status := "executing"
    abandon_reason := none
    result := none }

def c8state : TrackerState :=
  { active_tasks := [("e1", c8task)]
    completed_tasks := []
    performance_metrics := [] }

/-- C8 (code evaluated at the failing input): with one overdue active
execution, `cleanup_stale_tasks` — holding the non-reentrant per-tracker
lock — calls the public `abandon_task_execution`, which tries to acquire
that same lock again, so the sweep blocks forever (`none`) instead of
abandoning the execution and returning.  With no overdue execution the
sweep returns with the state untouched. -/
theorem c8_sweep_stale_deadlock :
    cleanup_stale_tasks 3700 3600 false c8state = none ∧
    cleanup_stale_tasks 3599 3600 false c8state = some c8state := by
  refine ⟨?_, ?_⟩ <;> decide

/-- The tracker state for C2: one execution `e1` of droid `d1`, active
since time 10. -/
def c2task : TaskExec :=
  { task_id := "t1"
    droid_id := "d1"
    description := "demo"
    start_time := 10
    end_time := none
    duration_seconds := none
    status := "executing"
    abandon_reason := none
    result := none }

def c2state : TrackerState :=
  { active_tasks := [("e1", c2task)]
    completed_tasks := []
    performance_metrics := [] }

/-- C2 counterexample: completing an execution after the clock moved
backward (start at 10, completion at 5) stores `duration_seconds = -5`
in the history record and accumulates `-5` into the droid's
`total_duration` — nothing is clamped to 0, so the claim as stated is
false for the code. -/
theorem c2_negative_duration_counterexample :
    (completeBody 5 "e1" [] true c2state).completed_tasks.map
      (fun t => t.duration_seconds) = [some (-5)] ∧
    (completeBody 5 "e1" [] true c2state).performance_metrics.map
      (fun p => (p.1, p.2.total_duration)) = [("d1", (-5 : ℚ))] := by
  constructor
  · decide
  · simp [completeBody, c2state, c2task, dictGet?, dictErase, dictInsert,
      updateDroidMetrics, updateMetrics, metricsInit]

/-- C2 (amended): the recorded duration is `end_time - start_time` with
no clamping; it is ≥ 0 exactly when the finalising clock read is not
earlier than the recorded start time.  Under that no-backward-clock
hypothesis, completion and abandonment append one history record whose
`duration_seconds = now - start_time ≥ 0`, with the status matching the
success flag (resp. `abandoned`). -/
theorem c2_duration_end_minus_start
    (s : TrackerState) (execution_id reason : String) (now : Int)
    (result : Payload) (success : Bool) (task : TaskExec)
    (hactive : dictGet? execution_id s.active_tasks = some task)
    (hclock : task.start_time ≤ now) :
    (completeBody now execution_id result success s).completed_tasks =
      s.completed_tasks ++ [{ task with
        end_time := some now
        duration_seconds := some (now - task.start_time)
        status := if success then "completed" else "failed"
        result := some result }] ∧
    (abandonBody now execution_id reason s).completed_tasks =
      s.completed_tasks ++ [{ task with
        end_time := some now
        duration_seconds := some (now - task.start_time)
        status := "abandoned"
        abandon_reason := some reason
        result := some [("error", "Task abandoned: " ++ reason)] }] ∧
    0 ≤ now - task.start_time := by
  refine ⟨?_, ?_, by omega⟩ <;> simp [completeBody, abandonBody, hactive]

/-- Witness for C2 (amended) at a concrete state with a forward clock. -/
theorem c2_duration_end_minus_start_witness :
    (completeBody 12 "e1" [] true c2state).completed_tasks =
      c2state.completed_tasks ++ [{ c2task with
        end_time := some 12
        duration_seconds := some (12 - c2task.start_time)
        status := if true then "completed" else "failed"
        result := some [] }] ∧
    (abandonBody 12 "e1" "timeout" c2state).completed_tasks =
      c2state.completed_tasks ++ [{ c2task with
        end_time := some 12
        duration_seconds := some (12 - c2task.start_time)
        status := "abandoned"
        abandon_reason := some "timeout"
        result := some [("error", "Task abandoned: " ++ "timeout")] }] ∧
    0 ≤ 12 - c2task.start_time :=
  c2_duration_end_minus_start c2state "e1" "timeout" 12 [] true c2task
    (by decide) (by decide)

/-- One finalisation folded into a droid's metrics: `e.1` is the
success flag passed to `_update_performance_metrics`, `e.2` the
duration. -/
def metricsStep (m : Metrics) (e : Bool × ℚ) : Metrics :=
  updateMetrics m e.2 e.1

/-- One droid's metrics after a sequence of finalisations (each
completion or abandonment calls `_update_performance_metrics` once). -/
def applyMetrics (evs : List (Bool × ℚ)) : Metrics :=
  evs.foldl metricsStep metricsInit

theorem foldl_metricsStep_total (evs : List (Bool × ℚ)) :
    ∀ m : Metrics, (evs.foldl metricsStep m).total_executions =
      m.total_executions + evs.length := by
  induction evs with
  | nil => intro m; simp
  | cons e t ih =>
      intro m
      rw [List.foldl_cons, ih]
      simp [metricsStep, updateMetrics]
      omega

theorem foldl_metricsStep_successful (evs : List (Bool × ℚ)) :
    ∀ m : Metrics, (evs.foldl metricsStep m).successful_executions =
      m.successful_executions + (evs.filter (fun e => e.1)).length := by
  induction evs with
  | nil => intro m; simp
  | cons e t ih =>
      intro m
      obtain ⟨b, d⟩ := e
      rw [List.foldl_cons, ih]
      cases b
      · simp [metricsStep, updateMetrics, List.filter_cons]
      · simp [metricsStep, updateMetrics, List.filter_cons]
        omega

theorem foldl_metricsStep_failed (evs : List (Bool × ℚ)) :
    ∀ m : Metrics, (evs.foldl metricsStep m).failed_executions =
      m.failed_executions + (evs.filter (fun e => !e.1)).length := by
  induction evs with
  | nil => intro m; simp
  | cons e t ih =>
      intro m
      obtain ⟨b, d⟩ := e
      rw [List.foldl_cons, ih]
      cases b
      · simp [metricsStep, updateMetrics, List.filter_cons]
        omega
      · simp [metricsStep, updateMetrics, List.filter_cons]

theorem foldl_metricsStep_duration (evs : List (Bool × ℚ)) :
    ∀ m : Metrics, (evs.foldl metricsStep m).total_duration =
      m.total_duration + (evs.map (fun e => e.2)).sum := by
  induction evs with
  | nil => intro m; simp
  | cons e t ih =>
      intro m
      rw [List.foldl_cons, ih]
      simp [metricsStep, updateMetrics]
      ring

theorem foldl_metricsStep_avg (evs : List (Bool × ℚ)) :
    ∀ m : Metrics, evs ≠ [] → (evs.foldl metricsStep m).avg_duration =
      (evs.foldl metricsStep m).total_duration /
        ((evs.foldl metricsStep m).total_executions : ℚ) := by
  induction evs with
  | nil => intro m h; exact absurd rfl h
  | cons e t ih =>
      intro m _
      rw [List.foldl_cons]
      cases t with
      | nil => simp [metricsStep, updateMetrics]
      | cons e' t' => exact ih (metricsStep m e) (by simp)

theorem foldl_metricsStep_rate (evs : List (Bool × ℚ)) :
    ∀ m : Metrics, evs ≠ [] → (evs.foldl metricsStep m).success_rate =
      ((evs.foldl metricsStep m).successful_executions : ℚ) /
        ((evs.foldl metricsStep m).total_executions : ℚ) := by
  induction evs with
  | nil => intro m h; exact absurd rfl h
  | cons e t ih =>
      intro m _
      rw [List.foldl_cons]
      cases t with
      | nil => simp [metricsStep, updateMetrics]
      | cons e' t' => exact ih (metricsStep m e) (by simp)

/-- Closed form of the rolling metrics: after any finalisation sequence
the counters are the event counts, the duration is the sum, and the
derived fields are the quotients (`0/0 = 0` covers the empty case, which
matches the zero initial entry). -/
theorem applyMetrics_closed_form (evs : List (Bool × ℚ)) :
    applyMetrics evs =
      { total_executions := evs.length
        successful_executions := (evs.filter (fun e => e.1)).length
        failed_executions := (evs.filter (fun e => !e.1)).length
        total_duration := (evs.map (fun e => e.2)).sum
        avg_duration := (evs.map (fun e => e.2)).sum / (evs.length : ℚ)
        success_rate :=
          ((evs.filter (fun e => e.1)).length : ℚ) / (evs.length : ℚ) } := by
  have htot := foldl_metricsStep_total evs metricsInit
  have hsucc := foldl_metricsStep_successful evs metricsInit
  have hfail := foldl_metricsStep_failed evs metricsInit
  have hdur := foldl_metricsStep_duration evs metricsInit
  cases hevs : evs with
  | nil => simp [applyMetrics, metricsInit]
  | cons e t =>
      rw [← hevs]
      have hne : evs ≠ [] := by rw [hevs]; simp
      have havg := foldl_metricsStep_avg evs metricsInit hne
      have hrate := foldl_metricsStep_rate evs metricsInit hne
      ext
      · simpa [applyMetrics, metricsInit] using htot
      · simpa [applyMetrics, metricsInit] using hsucc
      · simpa [applyMetrics, metricsInit] using hfail
      · simpa [applyMetrics, metricsInit] using hdur
      · rw [applyMetrics, havg, htot, hdur]
        simp [metricsInit]
      · rw [applyMetrics, hrate, htot, hsucc]
        simp [metricsInit]

/-- C7: for one droid, after any sequence of finalisations the metrics
are exactly the claimed aggregates — the counters count the events, the
duration is their sum, `avg_duration = total_duration / N` and
`success_rate = S / N` — and the final metrics are invariant under
permutation of the finalisation order. -/
theorem c7_metrics_consistency (evs : List (Bool × ℚ)) :
    (applyMetrics evs).total_executions = evs.length ∧
    (applyMetrics evs).successful_executions =
      (evs.filter (fun e => e.1)).length ∧
    (applyMetrics evs).failed_executions =
      (evs.filter (fun e => !e.1)).length ∧
    (applyMetrics evs).total_duration = (evs.map (fun e => e.2)).sum ∧
    (applyMetrics evs).avg_duration =
      (evs.map (fun e => e.2)).sum / (evs.length : ℚ) ∧
    (applyMetrics evs).success_rate =
      ((evs.filter (fun e => e.1)).length : ℚ) / (evs.length : ℚ) ∧
    ∀ evs' : List (Bool × ℚ), evs.Perm evs' →
      applyMetrics evs' = applyMetrics evs := by
  have hs := applyMetrics_closed_form evs
  refine ⟨by rw [hs], by rw [hs], by rw [hs], by rw [hs], by rw [hs],
    by rw [hs], ?_⟩
  intro evs' h
  have h1 : evs'.length = evs.length := h.length_eq.symm
  have h2 : (evs'.filter (fun e => e.1)).length =
      (evs.filter (fun e => e.1)).length := (h.filter _).length_eq.symm
  have h3 : (evs'.filter (fun e => !e.1)).length =
      (evs.filter (fun e => !e.1)).length := (h.filter _).length_eq.symm
  have h4 : (evs'.map (fun e => e.2)).sum = (evs.map (fun e => e.2)).sum :=
    ((h.map _).sum_eq).symm
  rw [applyMetrics_closed_form evs', applyMetrics_closed_form evs,
    h1, h2, h3, h4]

/-- Witness for C7: the metrics of a two-finalisation history are
unchanged when the two calls are swapped. -/
theorem c7_metrics_consistency_witness :
    applyMetrics [((false : Bool), (5 : ℚ)), (true, 3)] =
      applyMetrics [((true : Bool), (3 : ℚ)), (false, 5)] :=
  (c7_metrics_consistency [(true, 3), (false, 5)]).2.2.2.2.2.2
    [(false, 5), (true, 3)] (List.Perm.swap _ _ _)

/-- C9: `validate_and_store_result` never raises — a non-dict payload
returns `False` with nothing written, and a dict payload returns `True`
after writing exactly one `task.result.validated` record whose category
is the first match in the order `files_created → file_operations`,
`commits → git_operations`, `tests_run → testing`, `error → error`,
otherwise `unknown`. -/
theorem c9_validate_and_store (execution_id : String) (r : Payload) :
    validate_and_store_result execution_id none = (false, []) ∧
    validate_and_store_result execution_id (some r) =
      (true, [{ execution_id := execution_id
                category := categorizeResult r
                original_result := r }]) ∧
    (payloadHasKey r "files_created" = true →
      categorizeResult r = "file_operations") ∧
    (payloadHasKey r "files_created" = false →
      payloadHasKey r "commits" = true →
      categorizeResult r = "git_operations") ∧
    (payloadHasKey r "files_created" = false →
      payloadHasKey r "commits" = false →
      payloadHasKey r "tests_run" = true →
      categorizeResult r = "testing") ∧
    (payloadHasKey r "files_created" = false →
      payloadHasKey r "commits" = false →
      payloadHasKey r "tests_run" = false →
      payloadHasKey r "error" = true →
      categorizeResult r = "error") ∧
    (payloadHasKey r "files_created" = false →
      payloadHasKey r "commits" = false →
      payloadHasKey r "tests_run" = false →
      payloadHasKey r "error" = false →
      categorizeResult r = "unknown") := by
  refine ⟨rfl, rfl, ?_, ?_, ?_, ?_, ?_⟩ <;>
    intros <;> simp [categorizeResult, *]

/-- Witness for C9: a non-dict payload is rejected with `False`, and a
payload with only a `commits` key is categorised `git_operations`. -/
theorem c9_validate_and_store_witness :
    validate_and_store_result "e7" none = (false, []) ∧
    categorizeResult [("commits", "3")] = "git_operations" :=
  ⟨(c9_validate_and_store "e7" []).1,
   (c9_validate_and_store "e7" [("commits", "3")]).2.2.2.1
     (by decide) (by decide)⟩

/-- C10: `TaskExecution.__exit__` returns `True` on every exit (so the
with-block swallows any exception); on normal exit it emits exactly one
task-completion report with success `True`; on abnormal exit it emits an
error report followed by exactly one task-completion report with success
`False` whose result records the exception message and type. -/
theorem c10_task_execution_exit (task_id description msg ty : String) :
    (taskExecutionExit task_id description none).1 = true ∧
    (taskExecutionExit task_id description (some (msg, ty))).1 = true ∧
    ((taskExecutionExit task_id description none).2.filter
      (fun r => r.event_type == "task_completion")).map
        (fun r => (r.status, r.success, r.result)) =
      [("completed", some true, some (ExitResult.completedDict description))] ∧
    ((taskExecutionExit task_id description (some (msg, ty))).2.filter
      (fun r => r.event_type == "task_completion")).map
        (fun r => (r.status, r.success, r.result)) =
      [("failed", some false, some (ExitResult.errorDict msg ty))] ∧
    (taskExecutionExit task_id description (some (msg, ty))).2 =
      [report_error_record task_id msg,
       report_task_completion_record task_id (ExitResult.errorDict msg ty) false] := by
  refine ⟨rfl, rfl, ?_, ?_, rfl⟩ <;>
    simp [taskExecutionExit, report_error_record, report_task_completion_record]

/-- The `droid_performance` component of
`ExecutionTracker.get_performance_summary` (the live metrics
dictionary, returned as a copy). -/
def summary_droid_performance (s : TrackerState) : List (String × Metrics) :=
  s.performance_metrics

/-- C1 scenario: one execution of task `t1` by droid `d1`, started at
time 0 (so `start` returns `exec-0-t1`) and completed successfully at
time 1, both through the `AuditLogger` operations; no crash, no other
activity. -/
def c1ops : List AuditOp :=
  [AuditOp.start 0 "t1" "d1" "demo",
   AuditOp.complete 1 "exec-0-t1" [("ok", "yes")] true]

/-- C1 (code evaluated at the failing input): after one successful
execution of droid `d1` completed normally through the AuditLogger, the
live tracker reports `success_rate = 1` for `d1`, but the analyzer
recomputing from the persisted events reports `success_rate = 0` for
`d1` — the `task.execution.completed` record carries no `droid_id` (so
its success is attributed to `"unknown"`) and the `started` record
already counts toward `d1`'s `executions` denominator.  The claimed
equality of the two rates is false for the code. -/
theorem c1_reconciliation_mismatch :
    (dictGet? "d1" (summary_droid_performance (runOps c1ops).tracker)).map
      (fun m => m.success_rate) = some 1 ∧
    (dictGet? "d1" (analyze_droid_performance (runOps c1ops).events)).map
      (fun st => st.success_rate) = some 0 := by
  constructor
  · simp [c1ops, runOps, logStarted, logCompleted, startBody, completeBody,
      emptyAudit, emptyTracker, summary_droid_performance, dictGet?,
      dictErase, dictInsert, updateDroidMetrics, updateMetrics, metricsInit]
  · simp [c1ops, runOps, logStarted, logCompleted, startBody, completeBody,
      emptyAudit, emptyTracker, analyze_droid_performance, isExecutionEvent,
      droidStatsStep, droidStatsInit, dictGet?, dictErase, dictInsert,
      updateDroidMetrics, updateMetrics, metricsInit]
